import Mathlib

/-!
# Orbit playback engine of the Solar System Simulation Website

Shallow Lean embedding of the orbit playback engine in `src/main.js`:
the Position Series Loader (the `planetPromises` load chain) and the
Playback Clock & Advancer (the `animate` loop), plus the orbit-toggle
UI handler of the second application variant.

Coordinates and the frame counter are modelled as rationals; a raw JSON
record is `Option (List ℚ)`: `none` for a null record or a record with
no `pos` field, `some l` for a record whose `pos` array holds `l`.
-/

set_option autoImplicit false

namespace SolarSim

/-- A 3-D point, in source units or render-space units. -/
structure Vec3 where
  x : ℚ
  y : ℚ
  z : ℚ
deriving DecidableEq, Repr

/-- One raw record of a body's data file.  `none` models a null/undefined
record or one without a `pos` array; `some l` models `pos = l`. -/
abbrev Entry : Type := Option (List ℚ)

/-- `Math.floor(frameIndex) % positions.length` (main.js line 167), for the
non-negative frame counter the program maintains. -/
def sampleIndex (F : ℚ) (L : ℕ) : ℕ :=
  (⌊F⌋).toNat % L

/-- The fixed per-frame step `FRAME_SPEED = 0.1` (main.js line 38). -/
def FRAME_SPEED : ℚ := 1 / 10

/-- The loader's well-formedness test on a record
(`entry && entry.pos && entry.pos.length === 3`, main.js line 121). -/
def entryFilter : Entry → Bool
  | some pos => pos.length == 3
  | none => false

/-- The loader's map from a retained record to a scaled render point
(`entry.pos[k] * planet.ORBIT_SCALE`, main.js lines 122-126).  Reads the
first three coordinates; the fallback is unreachable behind `entryFilter`. -/
def scaledPoint (scale : ℚ) : Entry → Vec3
  | some (x :: y :: z :: _) => ⟨x * scale, y * scale, z * scale⟩
  | _ => ⟨0, 0, 0⟩

/-- The orbit polyline point sequence: filter, then scale (main.js 120-126). -/
def orbitPoints (scale : ℚ) (data : List Entry) : List Vec3 :=
  (data.filter entryFilter).map (scaledPoint scale)

/-- Success path of one body's load (main.js lines 115-130): the raw parsed
`data` is stored as the body's series (`planetPositions[planet.name] = data`)
and the orbit polyline is built from the filtered, scaled records. -/
def loadBody (scale : ℚ) (data : List Entry) : List Entry × List Vec3 :=
  (data, orbitPoints scale data)

/-- One body's load with its per-body failure handler (main.js lines 112-132):
a fetch/parse result either succeeds, storing the parsed records, or fails,
leaving the series empty and emitting the diagnostic of the `catch` clause. -/
def applyLoad (name : String) :
    Except String (List Entry) → List Entry × Option String
  | .ok data => (data, none)
  | .error _ => ([], some ("Error loading " ++ name ++ ":"))

/-- All bodies' loads: each body's fetch resolves independently and writes
only its own series (main.js line 112, `planets.map`). -/
def loadAll (results : List (String × Except String (List Entry))) :
    List (List Entry × Option String) :=
  results.map (fun r => applyLoad r.1 r.2)

/-- One planet's per-frame position update (main.js lines 162-183): when the
series is non-empty, index it at `sampleIndex`, and when the record there has
a `pos` array of exactly three coordinates, set the mesh position to the
scaled triple; otherwise leave the current mesh position. -/
def advanceBody (positions : List Entry) (scale : ℚ) (F : ℚ)
    (current : Vec3) : Vec3 :=
  if positions.length = 0 then current
  else
    match positions[sampleIndex F positions.length]? with
    | some (some [x, y, z]) => ⟨x * scale, y * scale, z * scale⟩
    | _ => current

/-- The position update `advanceBody` produces, separated from the mesh it is
written to: `none` when the frame skips the body (empty series or malformed
record at the index), `some p` when the frame writes `p`. -/
def producedPos (positions : List Entry) (scale : ℚ) (F : ℚ) : Option Vec3 :=
  if positions.length = 0 then none
  else
    match positions[sampleIndex F positions.length]? with
    | some (some [x, y, z]) => some ⟨x * scale, y * scale, z * scale⟩
    | _ => none

/-- Per-body animation state: the loaded series (empty before the load
resolves or after a failure), the body's `ORBIT_SCALE`, and the mesh
position the renderer draws. -/
structure BodyState where
  positions : List Entry
  scaleFactor : ℚ
  meshPos : Vec3
deriving DecidableEq, Repr

/-- Whole-loop state: the per-body states and the `frameIndex` counter. -/
structure SimState where
  bodies : List BodyState
  frameIndex : ℚ
deriving DecidableEq, Repr

/-- One invocation of `animate` (main.js lines 159-189): update every body
from the current counter, then advance the counter by the fixed step. -/
def animateStep (step : ℚ) (s : SimState) : SimState :=
  { bodies := s.bodies.map (fun b =>
      { b with meshPos :=
          advanceBody b.positions b.scaleFactor s.frameIndex b.meshPos }),
    frameIndex := s.frameIndex + step }

/-- UI state of the second variant (main.js lines 358-416): the
`orbitsVisible` flag, each orbit line's `visible` flag, the `speed`
multiplier, the counter `t`, and the planet mesh positions. -/
structure ViewState where
  orbitsVisible : Bool
  lineVisible : List Bool
  speed : ℚ
  t : ℚ
  planetPos : List Vec3
deriving DecidableEq, Repr

/-- The `toggleOrbits` click handler (main.js lines 395-400): negate
`orbitsVisible` and write the new value to every orbit line. -/
def toggleOrbits (s : ViewState) : ViewState :=
  { s with orbitsVisible := !s.orbitsVisible,
           lineVisible := s.lineVisible.map (fun _ => !s.orbitsVisible) }

/-- Initial state of the wrap-around scenario: the three-sample series
`[[0,0,0],[10,0,0],[20,0,0]]`, scale factor 1, counter starting at 0. -/
def wrapDemo : SimState :=
  ⟨[⟨[some [0, 0, 0], some [10, 0, 0], some [20, 0, 0]], 1, ⟨0, 0, 0⟩⟩], 0⟩

/-! ## Helper lemmas -/

theorem advanceBody_eq_getD (positions : List Entry) (scale F : ℚ)
    (c : Vec3) :
    advanceBody positions scale F c = (producedPos positions scale F).getD c := by
  unfold advanceBody producedPos
  split
  · rfl
  · split <;> rfl

theorem animateStep_body (step : ℚ) (s : SimState) (i : ℕ) :
    (animateStep step s).bodies[i]? =
      (s.bodies[i]?).map (fun b =>
        { b with meshPos :=
            advanceBody b.positions b.scaleFactor s.frameIndex b.meshPos }) := by
  unfold animateStep
  exact List.getElem?_map _ s.bodies i

theorem advanceBody_nil (scale F : ℚ) (c : Vec3) :
    advanceBody [] scale F c = c :=
  rfl

theorem length_filter_eq_sub (p : Entry → Bool) (l : List Entry) :
    (l.filter p).length = l.length - (l.filter (fun e => !p e)).length := by
  induction l with
  | nil => rfl
  | cons a l ih =>
    have hle := List.length_filter_le (fun e => !p e) l
    cases h : p a <;> simp [List.filter_cons, h, ih] <;> omega

/-! ## Claims -/

/-- C2: for every non-empty samples sequence of length L and every
frame-counter value F ≥ 0, the computed sample index `floor(F) mod L` lies
in `[0, L)`, so the advancer's read of `samples[idx]` is in bounds. -/
theorem C2_sample_index_in_bounds (samples : List Entry) (F : ℚ)
    (hF : 0 ≤ F) (hL : samples.length ≠ 0) :
    sampleIndex F samples.length < samples.length ∧
      (samples[sampleIndex F samples.length]?).isSome := by
  have hlt : sampleIndex F samples.length < samples.length :=
    Nat.mod_lt _ (Nat.pos_of_ne_zero hL)
  exact ⟨hlt, by rw [List.getElem?_eq_getElem hlt]; rfl⟩

/-- Witness for C2 at a concrete input: one-sample series, counter 7/2. -/
theorem C2_sample_index_in_bounds_witness :
    sampleIndex (7 / 2) ([some [1, 2, 3]] : List Entry).length <
        ([some [1, 2, 3]] : List Entry).length ∧
      (([some [1, 2, 3]] : List Entry)[sampleIndex (7 / 2)
          ([some [1, 2, 3]] : List Entry).length]?).isSome :=
  C2_sample_index_in_bounds [some [1, 2, 3]] (7 / 2) (by norm_num) (by decide)

/-- C7: every invocation of the advancer increases the frame counter by the
fixed per-frame step `FRAME_SPEED`, so the counter is strictly greater after
every frame. -/
theorem C7_frame_counter_strictly_increases (s : SimState) :
    (animateStep FRAME_SPEED s).frameIndex = s.frameIndex + FRAME_SPEED ∧
      s.frameIndex < (animateStep FRAME_SPEED s).frameIndex := by
  refine ⟨rfl, ?_⟩
  show s.frameIndex < s.frameIndex + FRAME_SPEED
  have : (0 : ℚ) < FRAME_SPEED := by norm_num [FRAME_SPEED]
  linarith

/-- C1: for a body with a non-empty loaded series, a frame whose computed
index `sampleIndex` finds a record with a 3-coordinate `pos` array sets the
body's render position to exactly that sample scaled componentwise by the
body's scale factor. -/
theorem C1_advancer_sets_scaled_sample (positions : List Entry)
    (scale F : ℚ) (current : Vec3) (x y z : ℚ)
    (hE : positions[sampleIndex F positions.length]? = some (some [x, y, z])) :
    advanceBody positions scale F current = ⟨x * scale, y * scale, z * scale⟩ := by
  obtain ⟨hlt, -⟩ := List.getElem?_eq_some_iff.mp hE
  unfold advanceBody
  rw [if_neg (by omega), hE]

/-- Witness for C1: sample `(10,0,0)` with scale factor `0.5` yields render
position `(5,0,0)`. -/
theorem C1_advancer_sets_scaled_sample_witness :
    advanceBody [some [10, 0, 0]] (1 / 2) 0 ⟨9, 9, 9⟩ = ⟨5, 0, 0⟩ := by
  have h := C1_advancer_sets_scaled_sample [some [10, 0, 0]] (1 / 2) 0
    ⟨9, 9, 9⟩ 10 0 0 (by norm_num [sampleIndex])
  rw [h]
  norm_num

/-- C8: the per-frame position update is a deterministic function of the
frame counter, the loaded series and the scale factor: two invocations with
the same triple, whatever the bodies' current mesh positions, write the same
produced position. -/
theorem C8_advancer_deterministic (positions : List Entry) (scale F : ℚ)
    (c₁ c₂ : Vec3) (p : Vec3)
    (hp : producedPos positions scale F = some p) :
    advanceBody positions scale F c₁ = p ∧
      advanceBody positions scale F c₂ = p := by
  rw [advanceBody_eq_getD, advanceBody_eq_getD, hp]
  exact ⟨rfl, rfl⟩

/-- Witness for C8: two invocations from distinct current positions both
produce `(5,0,0)`. -/
theorem C8_advancer_deterministic_witness :
    advanceBody [some [10, 0, 0]] (1 / 2) 0 ⟨1, 1, 1⟩ = ⟨5, 0, 0⟩ ∧
      advanceBody [some [10, 0, 0]] (1 / 2) 0 ⟨2, 2, 2⟩ = ⟨5, 0, 0⟩ :=
  C8_advancer_deterministic [some [10, 0, 0]] (1 / 2) 0 ⟨1, 1, 1⟩ ⟨2, 2, 2⟩
    ⟨5, 0, 0⟩ (by norm_num [producedPos, sampleIndex])

/-- C9: when the raw stored record at the computed index is missing a `pos`
array or its `pos` array does not have exactly 3 elements, the frame leaves
the body's render position unchanged and raises no error; the index modulo
is taken over the raw stored sequence's full length, malformed records
included. -/
theorem C9_malformed_record_skipped (scale F : ℚ) (current : Vec3)
    (data : List Entry) (e : Entry)
    (hE : (loadBody scale data).1[sampleIndex F
        (loadBody scale data).1.length]? = some e)
    (hBad : entryFilter e = false) :
    advanceBody (loadBody scale data).1 scale F current = current ∧
      (loadBody scale data).1.length = data.length := by
  refine ⟨?_, rfl⟩
  have h1 : (loadBody scale data).1 = data := rfl
  rw [h1] at hE ⊢
  unfold advanceBody
  split
  · rfl
  · rw [hE]
    rcases e with _ | l
    · rfl
    · rcases l with _ | ⟨a, l⟩
      · rfl
      · rcases l with _ | ⟨b, l⟩
        · rfl
        · rcases l with _ | ⟨c, l⟩
          · rfl
          · rcases l with _ | ⟨d, l⟩
            · simp [entryFilter] at hBad
            · rfl

/-- Witness for C9: a two-coordinate record at the index is skipped and the
raw stored length counts it. -/
theorem C9_malformed_record_skipped_witness :
    advanceBody (loadBody 1 [some [1, 2]]).1 1 0 ⟨7, 7, 7⟩ = ⟨7, 7, 7⟩ ∧
      (loadBody 1 [some [1, 2]]).1.length = ([some [1, 2]] : List Entry).length :=
  C9_malformed_record_skipped 1 0 ⟨7, 7, 7⟩ [some [1, 2]] (some [1, 2])
    (by norm_num [sampleIndex, loadBody]) (by decide)

/-- C3: a body whose series is empty (load pending or failed) is skipped by
the advancer on every frame: its whole per-body state, mesh position
included, is unchanged after any number of frames, and no index modulo is
ever taken (the guard returns before the index computation), so no error is
raised. -/
theorem C3_empty_series_skipped (s : SimState) (i : ℕ) (b : BodyState)
    (n : ℕ) (hb : s.bodies[i]? = some b) (he : b.positions = []) :
    ((animateStep FRAME_SPEED)^[n] s).bodies[i]? = some b := by
  induction n generalizing s with
  | zero => simpa using hb
  | succ n ih =>
    rw [Function.iterate_succ_apply]
    apply ih
    rw [animateStep_body, hb]
    simp only [Option.map_some']
    have hm : advanceBody b.positions b.scaleFactor s.frameIndex b.meshPos
        = b.meshPos := by
      rw [he, advanceBody_nil]
    rw [hm]

/-- Witness for C3: a body with an empty series keeps state
`⟨[], 1, (1,2,3)⟩` across five frames. -/
theorem C3_empty_series_skipped_witness :
    ((animateStep FRAME_SPEED)^[5]
        ⟨[⟨[], 1, ⟨1, 2, 3⟩⟩], 0⟩).bodies[0]? = some ⟨[], 1, ⟨1, 2, 3⟩⟩ :=
  C3_empty_series_skipped ⟨[⟨[], 1, ⟨1, 2, 3⟩⟩], 0⟩ 0 ⟨[], 1, ⟨1, 2, 3⟩⟩ 5
    rfl rfl

/-- C4 counterexample: a two-record source with one malformed record (a
`pos` of length 2) stores a sequence of 2 records on the body's series, not
the claimed N − M = 1: the advancer-indexed store keeps the raw records. -/
theorem C4_counterexample :
    ¬ (loadBody 1 [some [1, 2, 3], some [1, 2]]).1.length = 1 := by
  decide

/-- C4 amended: the loader stores the raw parsed sequence of all N records
on the body's series (which the advancer indexes), while the orbit polyline
is built from exactly the N − M records with a 3-element `pos` array, each
scaled by the body's scale factor. -/
theorem C4_loader_raw_series_filtered_orbit (scale : ℚ) (data : List Entry) :
    (loadBody scale data).1 = data ∧
      (loadBody scale data).2 = (data.filter entryFilter).map (scaledPoint scale) ∧
      (loadBody scale data).2.length =
        data.length - (data.filter (fun e => !entryFilter e)).length := by
  refine ⟨rfl, rfl, ?_⟩
  show (orbitPoints scale data).length = _
  unfold orbitPoints
  rw [List.length_map]
  exact length_filter_eq_sub entryFilter data

/-- C5: a fetch or parse failure for one body is isolated: the failed body's
series is stored empty together with the diagnostic message of its `catch`
handler, and any other body's loaded series is a function of that body's own
fetch result alone — changing the failed body's result cannot alter it. -/
theorem C5_load_failure_isolated
    (results rs2 : List (String × Except String (List Entry)))
    (i j : ℕ) (name err : String)
    (hi : results[i]? = some (name, Except.error err))
    (hij : j ≠ i) (hagree : rs2[j]? = results[j]?) :
    (loadAll results)[i]? =
        some ([], some ("Error loading " ++ name ++ ":")) ∧
      (loadAll rs2)[j]? = (loadAll results)[j]? := by
  constructor
  · unfold loadAll
    rw [List.getElem?_map, hi]
    rfl
  · unfold loadAll
    rw [List.getElem?_map, List.getElem?_map, hagree]

/-- Witness for C5: Mercury's fetch fails while Venus's succeeds; Mercury's
series is empty with a diagnostic, and flipping Mercury's result to a
success leaves Venus's loaded output identical. -/
theorem C5_load_failure_isolated_witness :
    (loadAll [("Mercury", Except.error "network"),
        ("Venus", Except.ok [some [1, 2, 3]])])[0]? =
        some ([], some ("Error loading " ++ "Mercury" ++ ":")) ∧
      (loadAll [("Mercury", Except.ok [some [4, 5, 6]]),
          ("Venus", Except.ok [some [1, 2, 3]])])[1]? =
        (loadAll [("Mercury", Except.error "network"),
          ("Venus", Except.ok [some [1, 2, 3]])])[1]? :=
  C5_load_failure_isolated
    [("Mercury", Except.error "network"), ("Venus", Except.ok [some [1, 2, 3]])]
    [("Mercury", Except.ok [some [4, 5, 6]]), ("Venus", Except.ok [some [1, 2, 3]])]
    0 1 "Mercury" "network" rfl (by decide) rfl

/-- C6: playback wraps cyclically: the index function is periodic in the
frame counter with period L, and on the three-sample demo series with scale
factor 1, step size 1 and counter starting at 0, four successive frames
yield positions `(0,0,0)`, `(10,0,0)`, `(20,0,0)`, `(0,0,0)`. -/
theorem C6_playback_wraps (F : ℚ) (L : ℕ) (hF : 0 ≤ F) (hL : L ≠ 0) :
    sampleIndex (F + L) L = sampleIndex F L ∧
      ((animateStep 1)^[1] wrapDemo).bodies.map BodyState.meshPos
        = [⟨0, 0, 0⟩] ∧
      ((animateStep 1)^[2] wrapDemo).bodies.map BodyState.meshPos
        = [⟨10, 0, 0⟩] ∧
      ((animateStep 1)^[3] wrapDemo).bodies.map BodyState.meshPos
        = [⟨20, 0, 0⟩] ∧
      ((animateStep 1)^[4] wrapDemo).bodies.map BodyState.meshPos
        = [⟨0, 0, 0⟩] := by
  refine ⟨?_, ?_, ?_, ?_, ?_⟩
  · unfold sampleIndex
    rw [Int.floor_add_nat,
      Int.toNat_add (Int.floor_nonneg.mpr hF) (Int.natCast_nonneg L),
      Int.toNat_natCast]
    exact Nat.add_mod_right _ _
  all_goals
  · simp only [wrapDemo, Function.iterate_succ_apply,
      Function.iterate_zero_apply, animateStep, advanceBody, sampleIndex,
      List.map_cons, List.map_nil, List.length_cons, List.length_nil]
    norm_num
    try rfl

/-- Witness for C6 at F = 2, L = 3: index 2 recurs after one full cycle. -/
theorem C6_playback_wraps_witness :
    sampleIndex ((2 : ℚ) + (3 : ℕ)) 3 = sampleIndex 2 3 ∧
      ((animateStep 1)^[1] wrapDemo).bodies.map BodyState.meshPos
        = [⟨0, 0, 0⟩] ∧
      ((animateStep 1)^[2] wrapDemo).bodies.map BodyState.meshPos
        = [⟨10, 0, 0⟩] ∧
      ((animateStep 1)^[3] wrapDemo).bodies.map BodyState.meshPos
        = [⟨20, 0, 0⟩] ∧
      ((animateStep 1)^[4] wrapDemo).bodies.map BodyState.meshPos
        = [⟨0, 0, 0⟩] :=
  C6_playback_wraps 2 3 (by norm_num) (by decide)

/-- C10: the orbit toggle is an involution on every reachable view state
(one where each orbit line's visible flag agrees with `orbitsVisible`, as
holds at startup and after every toggle), and a single toggle never changes
any planet position, the frame counter `t`, or the `speed` value. -/
theorem C10_toggle_orbits_involution (s : ViewState)
    (h : ∀ b ∈ s.lineVisible, b = s.orbitsVisible) :
    toggleOrbits (toggleOrbits s) = s ∧
      (toggleOrbits s).planetPos = s.planetPos ∧
      (toggleOrbits s).t = s.t ∧
      (toggleOrbits s).speed = s.speed := by
  refine ⟨?_, rfl, rfl, rfl⟩
  obtain ⟨v, lv, sp, t0, pp⟩ := s
  show ViewState.mk (!(!v)) ((lv.map fun _ => !v).map fun _ => !(!v)) sp t0 pp
      = ViewState.mk v lv sp t0 pp
  rw [Bool.not_not]
  have hl : (lv.map fun _ => !v).map (fun _ => v) = lv := by
    rw [List.map_map]
    conv_rhs => rw [← List.map_id lv]
    exact List.map_congr_left fun a ha => (h a ha).symm
  rw [hl]

/-- Witness for C10: toggling twice from the startup state (orbits visible,
both lines visible) restores it; one toggle keeps position, t and speed. -/
theorem C10_toggle_orbits_involution_witness :
    toggleOrbits (toggleOrbits ⟨true, [true, true], 1, 0, [⟨1, 2, 3⟩]⟩)
        = ⟨true, [true, true], 1, 0, [⟨1, 2, 3⟩]⟩ ∧
      (toggleOrbits ⟨true, [true, true], 1, 0, [⟨1, 2, 3⟩]⟩).planetPos
        = [⟨1, 2, 3⟩] ∧
      (toggleOrbits ⟨true, [true, true], 1, 0, [⟨1, 2, 3⟩]⟩).t = 0 ∧
      (toggleOrbits ⟨true, [true, true], 1, 0, [⟨1, 2, 3⟩]⟩).speed = 1 :=
  C10_toggle_orbits_involution ⟨true, [true, true], 1, 0, [⟨1, 2, 3⟩]⟩
    (by decide)

end SolarSim
